import Mathlib

/-!
Shallow embedding of `substrate/client/telemetry/src/layer.rs`: the telemetry
routing layer (`TelemetryLayer::on_event`), the attribute extractor
(`TelemetryAttrsVisitor` with its `record_u64` / `record_str` / `record_debug`
callbacks) and the sender registry (`Senders`).

Modelling conventions:
- A tracing event is its target name plus an ordered list of named fields;
  field values are tagged as unsigned integer, string, or other (the
  `record_debug` fallback).
- Rust panics (the `panic!` on missing fields, the `expect` on the u8
  conversion, and the byte-slice `value[1..]` going out of bounds) are
  modelled as `Except` errors tagged by `PanicKind`.
- `u64` values are modelled as `Nat`; the `u8` conversion in `on_event` is the
  identity on values below 256 and a panic (`TryInto` failure) otherwise.
- Rust `&value[1..]` slices off the first BYTE of the UTF-8 string.  When the
  first character is a one-byte character (code point < 128) this equals
  dropping the first character; when the string is empty the byte range is out
  of bounds, and when the first character is multi-byte the index is not a
  character boundary -- both panic.  The model checks exactly this.
- The registry (`HashMap<u64, Sender>`) is modelled extensionally as a function
  from key to optional channel id, and the channels themselves live in a
  `World` mapping channel ids to channel states, so that replacing a sender in
  the registry leaves the replaced sender's channel observable.
- `on_event` returns an `Effects` record describing every observable action
  (registry lookups, field decoding, send attempts, successful enqueues,
  diagnostic log lines, panics) together with the updated channel world.
-/

deriving instance DecidableEq for Except

namespace SubstrateTelemetry

/-- A field value as seen by a `tracing::field::Visit` visitor: recorded via
`record_u64`, `record_str`, or falling through to the no-op `record_debug`. -/
inductive FieldValue
  | u64Val (v : Nat)
  | strVal (s : String)
  | debugVal
deriving DecidableEq

/-- A tracing event: its metadata target and its ordered named field set. -/
structure EventModel where
  target : String
  fields : List (String × FieldValue)
deriving DecidableEq

/-- The reserved marker name, `pub const TELEMETRY_LOG_SPAN`. -/
def TELEMETRY_LOG_SPAN : String := "telemetry-logger"

/-- The `TelemetryAttrs` record populated by the visitor. -/
structure TelemetryAttrs where
  message_verbosity : Option Nat
  json : Option String
  id : Nat
deriving DecidableEq

/-- `TelemetryAttrs::new`: both decoded fields start out absent. -/
def TelemetryAttrs.new (id : Nat) : TelemetryAttrs :=
  { message_verbosity := none, json := none, id := id }

/-- The distinct panic sites of `on_event` and its visitor. -/
inductive PanicKind
  | jsonSlice
  | verbosityOverflow
  | missingFields
deriving DecidableEq

/-- The string `format!(r#"{{"id":{},"#, id)`, i.e. `\x7b"id":<id>,`. -/
def jsonHead (id : Nat) : String := "\x7b\"id\":" ++ toString id ++ ","

/-- `TelemetryAttrsVisitor::record_u64`: record the value under the name
`message_verbosity`, overwriting any previous value; ignore other names. -/
def record_u64 (a : TelemetryAttrs) (name : String) (value : Nat) : TelemetryAttrs :=
  if name = "message_verbosity" then { a with message_verbosity := some value } else a

/-- `TelemetryAttrsVisitor::record_str`: for the name `json`, build
`format!(r#"{{"id":{},"#, id)` and push `&value[1..]` onto it.  The byte slice
`value[1..]` panics on an empty string and on a multi-byte first character;
otherwise it drops the first character.  Other names are ignored. -/
def record_str (a : TelemetryAttrs) (name : String) (value : String) :
    Except PanicKind TelemetryAttrs :=
  if name = "json" then
    match value.data with
    | [] => .error .jsonSlice
    | c :: rest =>
      if c.toNat < 128 then
        .ok { a with json := some (jsonHead a.id ++ String.mk rest) }
      else
        .error .jsonSlice
  else
    .ok a

/-- One visitor step for one field, dispatching on the value's type exactly as
the `Visit` trait does: `u64` values to `record_u64`, strings to `record_str`,
anything else to the no-op `record_debug`. -/
def visitField (a : TelemetryAttrs) (f : String × FieldValue) :
    Except PanicKind TelemetryAttrs :=
  match f.2 with
  | .u64Val v => .ok (record_u64 a f.1 v)
  | .strVal s => record_str a f.1 s
  | .debugVal => .ok a

/-- `event.record(&mut vis)`: run the visitor over the fields in order,
starting from `TelemetryAttrs::new(id)`. -/
def runVisitor (id : Nat) (fields : List (String × FieldValue)) :
    Except PanicKind TelemetryAttrs :=
  fields.foldlM visitField (TelemetryAttrs.new id)

/-- State of one bounded mpsc channel: its capacity, its queued
`(verbosity, json)` messages, and whether the receiving side is gone. -/
structure ChannelState where
  capacity : Nat
  queue : List (Nat × String)
  closed : Bool
deriving DecidableEq

/-- The channel heap: channel id to channel state. -/
def World := Nat → Option ChannelState

/-- The sender registry `Senders` (`HashMap<u64, Sender>`), modelled
extensionally: routing key to the id of the registered channel. -/
def Senders := Nat → Option Nat

/-- `HashMap::get_mut(&id)` on the registry. -/
def lookupSender (s : Senders) (k : Nat) : Option Nat := s k

/-- `Senders::insert`: install or replace the sender for `id`
(`HashMap::insert` replaces an existing entry). -/
def Senders.insert (s : Senders) (k : Nat) (c : Nat) : Senders :=
  fun x => if x = k then some c else s x

/-- Replace one channel's state in the world, leaving the rest alone. -/
def updateChannel (w : World) (c : Nat) (ch : ChannelState) : World :=
  fun x => if x = c then some ch else w x

/-- The two error cases of `futures::channel::mpsc::Sender::try_send`. -/
inductive TrySendError
  | full
  | disconnected
deriving DecidableEq

/-- `Sender::try_send`: non-blocking enqueue.  A missing or closed channel is
disconnected; a channel at capacity is full; otherwise the message is appended
FIFO. -/
def try_send (w : World) (c : Nat) (msg : Nat × String) : Except TrySendError World :=
  match w c with
  | none => .error .disconnected
  | some ch =>
    if ch.closed then .error .disconnected
    else if ch.capacity ≤ ch.queue.length then .error .full
    else .ok (updateChannel w c { ch with queue := ch.queue ++ [msg] })

/-- Registry lookup followed by a try-send, the delivery path `on_event`
performs for a resolved routing key: `none` when no sender is registered. -/
def deliver (s : Senders) (w : World) (k : Nat) (msg : Nat × String) :
    Option (Except TrySendError World) :=
  (lookupSender s k).map (fun c => try_send w c msg)

/-- The two diagnostic log lines `on_event` can emit: the trace-level
`"Telemetry not set"` and the warning about a channel error. -/
inductive Diag
  | traceTelemetryNotSet
  | warnChannelError
deriving DecidableEq

/-- Every observable action of one `on_event` call: registry lookups performed,
whether the field set was decoded, messages passed to `try_send`, messages
actually enqueued, diagnostics logged, and the panic raised if any. -/
structure Effects where
  lookups : List Nat
  decoded : Bool
  sendAttempts : List (Nat × Nat × String)
  enqueued : List (Nat × Nat × String)
  diags : List Diag
  panicked : Option PanicKind
deriving DecidableEq

/-- The empty effect record: nothing observable happened. -/
def noEffects : Effects :=
  { lookups := [], decoded := false, sendAttempts := [], enqueued := [], diags := [], panicked := none }

/-- `TelemetryLayer::on_event`, step for step:
1. return immediately unless the target is `TELEMETRY_LOG_SPAN`;
2. search the span scope for the first span named `TELEMETRY_LOG_SPAN`
   (nothing at all happens when none is found);
3. look the span id up in the registry (trace `"Telemetry not set"` when no
   sender is registered);
4. run the visitor over the fields (its slice panic propagates);
5. on both fields present, convert the verbosity to u8 (panic above 255) and
   `try_send`, logging a warning on a full or disconnected channel;
   on a missing field, `panic!("missing fields in telemetry log: ...")`. -/
def on_event (senders : Senders) (w : World) (event : EventModel)
    (scope : List (String × Nat)) : Effects × World :=
  if event.target ≠ TELEMETRY_LOG_SPAN then
    (noEffects, w)
  else
    match scope.find? (fun x => x.1 = TELEMETRY_LOG_SPAN) with
    | none => (noEffects, w)
    | some sp =>
      match lookupSender senders sp.2 with
      | none =>
        ({ noEffects with lookups := [sp.2], diags := [.traceTelemetryNotSet] }, w)
      | some c =>
        match runVisitor sp.2 event.fields with
        | .error pk =>
          ({ noEffects with lookups := [sp.2], decoded := true, panicked := some pk }, w)
        | .ok attrs =>
          match attrs.message_verbosity, attrs.json with
          | some mv, some json =>
            if mv < 256 then
              match try_send w c (mv, json) with
              | .ok w' =>
                ({ noEffects with lookups := [sp.2], decoded := true, sendAttempts := [(c, mv, json)], enqueued := [(c, mv, json)] }, w')
              | .error _ =>
                ({ noEffects with lookups := [sp.2], decoded := true, sendAttempts := [(c, mv, json)], diags := [.warnChannelError] }, w)
            else
              ({ noEffects with lookups := [sp.2], decoded := true, panicked := some .verbosityOverflow }, w)
          | _, _ =>
            ({ noEffects with lookups := [sp.2], decoded := true, panicked := some .missingFields }, w)

/-- Helper: appending the fixed tail of the example payload to `jsonHead id`
yields the flat id-prefixed object `\x7b"id":<id>,"msg":"hello"\x7d`. -/
theorem jsonHead_msg (id : Nat) :
    jsonHead id ++ "\"msg\":\"hello\"\x7d" = "\x7b\"id\":" ++ toString id ++ ",\"msg\":\"hello\"\x7d" := by
  apply String.ext
  simp [jsonHead, String.data_append]

/-- Helper: running the visitor on the example fields
`message_verbosity = 3`, `json = \x7b"msg":"hello"\x7d` yields both fields
decoded, the json rewritten with the id injected first. -/
theorem runVisitor_validFields (id : Nat) :
    runVisitor id [("message_verbosity", FieldValue.u64Val 3), ("json", FieldValue.strVal "\x7b\"msg\":\"hello\"\x7d")]
      = .ok { message_verbosity := some 3, json := some ("\x7b\"id\":" ++ toString id ++ ",\"msg\":\"hello\"\x7d"), id := id } := by
  simp [runVisitor, List.foldlM, visitField, record_u64, record_str, TelemetryAttrs.new, Bind.bind, Except.bind, jsonHead_msg id, Pure.pure, Except.pure]

/-- Helper: a successful `try_send` on channel `c` leaves every other
channel's state untouched. -/
theorem try_send_ok_apply (w : World) (c : Nat) (msg : Nat × String) (w' : World)
    (h : try_send w c msg = Except.ok w') (x : Nat) (hx : x ≠ c) : w' x = w x := by
  unfold try_send at h
  rcases hwc : w c with _ | ch <;> rw [hwc] at h
  · exact absurd h (by simp)
  · by_cases hcl : ch.closed
    · simp [hcl] at h
    · by_cases hcap : ch.capacity ≤ ch.queue.length
      · simp [hcl, hcap] at h
      · simp [hcl, hcap] at h
        rw [← h]
        simp [updateChannel, hx]

/-- C6 (confirmed): for every event whose target differs from
`TELEMETRY_LOG_SPAN`, `on_event` is a pure no-op: no registry lookup
(`lookups = []`), no field decoding (`decoded = false`), no send attempt, no
enqueue, no diagnostic, no panic, and the channel world is unchanged. -/
theorem on_event_irrelevant_target_noop (s : Senders) (w : World) (e : EventModel)
    (scope : List (String × Nat)) (h : e.target ≠ TELEMETRY_LOG_SPAN) :
    on_event s w e scope = (noEffects, w) := by
  simp [on_event, h]

/-- C6 witness: a concrete event targeted `"other"` is a pure no-op. -/
theorem on_event_irrelevant_target_noop_witness :
    on_event (fun _ => none) (fun _ => none) { target := "other", fields := [("json", FieldValue.strVal "x")] } [(TELEMETRY_LOG_SPAN, 1)]
      = (noEffects, fun _ => none) :=
  on_event_irrelevant_target_noop _ _ _ _ (by decide)

/-- C2 counterexample: a marker-targeted event with no enclosing telemetry
span produces `noEffects` — in particular `diags = []`, i.e. NOT the one
trace-level diagnostic the claim asserts (the trace `"Telemetry not set"` is
emitted on the no-registered-sender path instead, see `on_event`). -/
theorem c2_no_span_no_diagnostic :
    (on_event (fun _ => none) (fun _ => none) { target := TELEMETRY_LOG_SPAN, fields := [] } []).1
      = noEffects := by decide

/-- C2 (amended): for every marker-targeted event with no span named
`TELEMETRY_LOG_SPAN` in the scope, `on_event` drops the event silently:
no diagnostic at all, no registry lookup, no decode, no send, world
unchanged. -/
theorem on_event_no_span_silent_drop (s : Senders) (w : World) (e : EventModel)
    (scope : List (String × Nat)) (ht : e.target = TELEMETRY_LOG_SPAN)
    (hs : scope.find? (fun x => x.1 = TELEMETRY_LOG_SPAN) = none) :
    on_event s w e scope = (noEffects, w) := by
  simp [on_event, ht, hs]

/-- C2 witness: concrete marker-targeted event under a scope holding only a
differently named span is dropped with no effects. -/
theorem on_event_no_span_silent_drop_witness :
    on_event (fun _ => none) (fun _ => none) { target := TELEMETRY_LOG_SPAN, fields := [] } [("other", 2)]
      = (noEffects, fun _ => none) :=
  on_event_no_span_silent_drop _ _ _ _ rfl (by decide)

/-- C7 (confirmed): `insert(I, a)` then `insert(I, b)` leaves the registry
mapping `I` to `b` only (other keys untouched); delivery for key `I` then goes
through `try_send` on `b`'s channel, and a successful such send leaves `a`'s
channel state exactly as before — `a` receives nothing further.  `insert` is a
total function (always succeeds) whose only output is the updated registry. -/
theorem insert_replaces_sender (s : Senders) (w : World) (I a b : Nat)
    (msg : Nat × String) (hab : a ≠ b) :
    lookupSender ((s.insert I a).insert I b) I = some b
      ∧ (∀ J, J ≠ I → lookupSender ((s.insert I a).insert I b) J = lookupSender s J)
      ∧ deliver ((s.insert I a).insert I b) w I msg = some (try_send w b msg)
      ∧ (∀ w', try_send w b msg = Except.ok w' → w' a = w a) := by
  refine ⟨by simp [lookupSender, Senders.insert], fun J hJ => by simp [lookupSender, Senders.insert, hJ], by simp [deliver, lookupSender, Senders.insert], fun w' h => try_send_ok_apply w b msg w' h a hab⟩

/-- C7 witness: inserting channel 2 then channel 3 under key 1 routes key 1 to
channel 3. -/
theorem insert_replaces_sender_witness :
    lookupSender ((Senders.insert (fun _ => none) 1 2).insert 1 3) 1 = some 3 :=
  (insert_replaces_sender (fun _ => none) (fun _ => none) 1 2 3 (0, "m") (by decide)).1

/-- C4 (confirmed): for a `json` field whose string value begins with the
character `\x7b` (code point 123), `record_str` stores
`jsonHead id = \x7b"id":<id>,` followed by the original value with its leading
`\x7b` removed. -/
theorem record_str_injects_id (a : TelemetryAttrs) (value : String) (rest : List Char)
    (h : value.data = Char.ofNat 123 :: rest) :
    record_str a "json" value = Except.ok { a with json := some (jsonHead a.id ++ String.mk rest) } := by
  simp [record_str, h]

/-- C4 witness: the value `\x7bab` is rewritten to `jsonHead 9 ++ "ab"`. -/
theorem record_str_injects_id_witness :
    record_str (TelemetryAttrs.new 9) "json" "\x7bab"
      = Except.ok { message_verbosity := none, json := some (jsonHead 9 ++ String.mk ['a', 'b']), id := 9 } :=
  record_str_injects_id (TelemetryAttrs.new 9) "\x7bab" ['a', 'b'] (by decide)

/-- C10 (confirmed): the rewrite strips the first byte unconditionally.  For a
value starting with any one-byte character (code point < 128) — whether or not
it is `\x7b` — the stored string is the id head followed by the value minus its
first character; for an empty value (byte range `1..` out of bounds) or a value
whose first character occupies more than one byte (index 1 not a character
boundary) `record_str` panics (`jsonSlice`) instead of ignoring the field. -/
theorem record_str_byte_slice (a : TelemetryAttrs) (value : String) :
    (∀ c rest, value.data = c :: rest → c.toNat < 128 →
        record_str a "json" value = Except.ok { a with json := some (jsonHead a.id ++ String.mk rest) })
      ∧ (value.data = [] → record_str a "json" value = Except.error PanicKind.jsonSlice)
      ∧ (∀ c rest, value.data = c :: rest → 128 ≤ c.toNat →
        record_str a "json" value = Except.error PanicKind.jsonSlice) := by
  refine ⟨fun c rest hd hc => by simp [record_str, hd, hc], fun hd => by simp [record_str, hd], fun c rest hd hc => by simp [record_str, hd, Nat.not_lt.mpr hc]⟩

/-- C10 witness: `"abc"` (not starting with `\x7b`) is still stripped and
rewritten; `""` and a two-byte first character both panic. -/
theorem record_str_byte_slice_witness :
    record_str (TelemetryAttrs.new 4) "json" "abc"
        = Except.ok { message_verbosity := none, json := some (jsonHead 4 ++ String.mk ['b', 'c']), id := 4 }
      ∧ record_str (TelemetryAttrs.new 4) "json" "" = Except.error PanicKind.jsonSlice
      ∧ record_str (TelemetryAttrs.new 4) "json" (String.mk [Char.ofNat 233]) = Except.error PanicKind.jsonSlice :=
  ⟨(record_str_byte_slice (TelemetryAttrs.new 4) "abc").1 'a' ['b', 'c'] (by decide) (by decide),
   (record_str_byte_slice (TelemetryAttrs.new 4) "").2.1 (by decide),
   (record_str_byte_slice (TelemetryAttrs.new 4) (String.mk [Char.ofNat 233])).2.2 (Char.ofNat 233) [] (by decide) (by decide)⟩

/-- C9 counterexample: a `json` field of string type with the value `""` is
NOT "recorded with no error raised": the visitor raises the slice panic. -/
theorem c9_empty_json_value_errors :
    visitField (TelemetryAttrs.new 5) ("json", FieldValue.strVal "") = Except.error PanicKind.jsonSlice := by
  decide

/-- C9 (amended): the extractor's gating.  A `message_verbosity` field of
unsigned-integer type is recorded, overwriting any previous value (last write
wins); any other name of integer type is ignored; a string field under any
name other than `json` is ignored with no error; a value of unexpected type
(the `record_debug` fallback) is ignored for every name; a `json` string field
is recorded (rewritten) only when its value is non-empty with a one-byte first
character, and raises the slice panic — rather than being recorded or silently
ignored — when the value is empty or when its first character occupies more
than one byte. -/
theorem visitor_field_gating (a : TelemetryAttrs) :
    (∀ v : Nat, record_u64 a "message_verbosity" v = { a with message_verbosity := some v })
      ∧ (∀ v₁ v₂ : Nat, record_u64 (record_u64 a "message_verbosity" v₁) "message_verbosity" v₂
          = { a with message_verbosity := some v₂ })
      ∧ (∀ name, ∀ v : Nat, name ≠ "message_verbosity" → record_u64 a name v = a)
      ∧ (∀ name sv, name ≠ "json" → record_str a name sv = Except.ok a)
      ∧ (∀ name, visitField a (name, FieldValue.debugVal) = Except.ok a)
      ∧ (∀ c rest, ∀ sv : String, sv.data = c :: rest → c.toNat < 128 →
          record_str a "json" sv = Except.ok { a with json := some (jsonHead a.id ++ String.mk rest) })
      ∧ (∀ sv : String, sv.data = [] → record_str a "json" sv = Except.error PanicKind.jsonSlice)
      ∧ (∀ c rest, ∀ sv : String, sv.data = c :: rest → 128 ≤ c.toNat →
          record_str a "json" sv = Except.error PanicKind.jsonSlice) := by
  refine ⟨fun v => by simp [record_u64], fun v₁ v₂ => by simp [record_u64], fun name v hn => by simp [record_u64, hn], fun name sv hn => by simp [record_str, hn], fun name => by simp [visitField], fun c rest sv hd hc => by simp [record_str, hd, hc], fun sv hd => by simp [record_str, hd], fun c rest sv hd hc => by simp [record_str, hd, Nat.not_lt.mpr hc]⟩

/-- C9 witness: concrete instances of the gating — an unexpected name of
integer type is ignored, two writes to `message_verbosity` keep the last,
`json` carried by a string under a different name is ignored, and a non-empty
`json` value whose first character is two bytes wide raises the slice panic
instead of being recorded. -/
theorem visitor_field_gating_witness :
    record_u64 (TelemetryAttrs.new 6) "other" 7 = TelemetryAttrs.new 6
      ∧ record_u64 (record_u64 (TelemetryAttrs.new 6) "message_verbosity" 1) "message_verbosity" 2
        = { message_verbosity := some 2, json := none, id := 6 }
      ∧ record_str (TelemetryAttrs.new 6) "message_verbosity" "9" = Except.ok (TelemetryAttrs.new 6)
      ∧ record_str (TelemetryAttrs.new 6) "json" (String.mk [Char.ofNat 955, 'x'])
        = Except.error PanicKind.jsonSlice :=
  ⟨(visitor_field_gating (TelemetryAttrs.new 6)).2.2.1 "other" 7 (by decide),
   (visitor_field_gating (TelemetryAttrs.new 6)).2.1 1 2,
   (visitor_field_gating (TelemetryAttrs.new 6)).2.2.2.1 "message_verbosity" "9" (by decide),
   (visitor_field_gating (TelemetryAttrs.new 6)).2.2.2.2.2.2.2 (Char.ofNat 955) ['x']
     (String.mk [Char.ofNat 955, 'x']) (by decide) (by decide)⟩

/-- C1 counterexample: a marker-targeted event with an enclosing telemetry
span (id 1) and missing both fields does NOT panic when no sender is
registered under the id: `on_event` looks the sender up before decoding, so
the malformed event is dropped with the trace diagnostic instead. -/
theorem c1_no_sender_no_panic :
    (on_event (fun _ => none) (fun _ => none) { target := TELEMETRY_LOG_SPAN, fields := [] } [(TELEMETRY_LOG_SPAN, 1)]).1.panicked = none
      ∧ (on_event (fun _ => none) (fun _ => none) { target := TELEMETRY_LOG_SPAN, fields := [] } [(TELEMETRY_LOG_SPAN, 1)]).1.diags
        = [Diag.traceTelemetryNotSet] := by
  constructor <;> decide

/-- C1 (amended): for every marker-targeted event with an enclosing telemetry
span AND a sender registered under the span's id, if the decoded field set is
missing `message_verbosity` or missing `json`, then `on_event` raises the
fatal missing-fields panic and sends nothing on any channel (world
unchanged). -/
theorem on_event_missing_fields_fatal (s : Senders) (w : World) (e : EventModel)
    (scope : List (String × Nat)) (sp : String × Nat) (c : Nat) (attrs : TelemetryAttrs)
    (ht : e.target = TELEMETRY_LOG_SPAN)
    (hs : scope.find? (fun x => x.1 = TELEMETRY_LOG_SPAN) = some sp)
    (hsend : lookupSender s sp.2 = some c)
    (hdec : runVisitor sp.2 e.fields = .ok attrs)
    (hmiss : attrs.message_verbosity = none ∨ attrs.json = none) :
    (on_event s w e scope).1.panicked = some PanicKind.missingFields
      ∧ (on_event s w e scope).1.sendAttempts = []
      ∧ (on_event s w e scope).1.enqueued = []
      ∧ (on_event s w e scope).2 = w := by
  rcases hmv : attrs.message_verbosity with _ | v <;> rcases hjs : attrs.json with _ | j <;>
    simp_all [on_event, noEffects]

/-- C1 witness: with a sender registered under key 1, a marker-targeted event
with no fields at all panics with the missing-fields condition. -/
theorem on_event_missing_fields_fatal_witness :
    (on_event (fun x => if x = 1 then some 5 else none) (fun _ => none)
        { target := TELEMETRY_LOG_SPAN, fields := [] } [(TELEMETRY_LOG_SPAN, 1)]).1.panicked
      = some PanicKind.missingFields :=
  (on_event_missing_fields_fatal (fun x => if x = 1 then some 5 else none) (fun _ => none)
    { target := TELEMETRY_LOG_SPAN, fields := [] } [(TELEMETRY_LOG_SPAN, 1)]
    (TELEMETRY_LOG_SPAN, 1) 5 (TelemetryAttrs.new 1) rfl (by decide) rfl rfl (Or.inl rfl)).1

/-- C3 (confirmed): for the valid example event (marker target, fields
`message_verbosity = 3` and `json = \x7b"msg":"hello"\x7d`), an enclosing
telemetry span `sp`, and a registered sender whose channel is open with free
capacity, `on_event` enqueues exactly the one message
`(3, \x7b"id":<sp.2>,"msg":"hello"\x7d)` onto that channel, touches no other
channel, emits no diagnostic and no panic. -/
theorem on_event_valid_event_delivers (s : Senders) (w : World) (e : EventModel)
    (scope : List (String × Nat)) (sp : String × Nat) (c : Nat) (ch : ChannelState)
    (he : e = { target := TELEMETRY_LOG_SPAN, fields := [("message_verbosity", FieldValue.u64Val 3), ("json", FieldValue.strVal "\x7b\"msg\":\"hello\"\x7d")] })
    (hs : scope.find? (fun x => x.1 = TELEMETRY_LOG_SPAN) = some sp)
    (hsend : lookupSender s sp.2 = some c)
    (hch : w c = some ch)
    (hopen : ch.closed = false)
    (hcap : ch.queue.length < ch.capacity) :
    (on_event s w e scope).1.enqueued = [(c, 3, "\x7b\"id\":" ++ toString sp.2 ++ ",\"msg\":\"hello\"\x7d")]
      ∧ (on_event s w e scope).1.diags = []
      ∧ (on_event s w e scope).1.panicked = none
      ∧ (on_event s w e scope).2 c = some { ch with queue := ch.queue ++ [(3, "\x7b\"id\":" ++ toString sp.2 ++ ",\"msg\":\"hello\"\x7d")] }
      ∧ ∀ x, x ≠ c → (on_event s w e scope).2 x = w x := by
  subst he
  have hrv := runVisitor_validFields sp.2
  simp only [on_event, hs, hsend, hrv]
  simp [try_send, hch, hopen, Nat.not_le.mpr hcap, updateChannel, noEffects,
    fun x (hx : x ≠ c) => hx]
  intro x hx
  simp [hx]

/-- C3 witness: span id 7, sender at key 7 mapping to channel 42 with
capacity 16 and an empty queue: the message
`(3, \x7b"id":7,"msg":"hello"\x7d)` is enqueued on channel 42. -/
theorem on_event_valid_event_delivers_witness :
    (on_event (fun x => if x = 7 then some 42 else none)
        (fun x => if x = 42 then some { capacity := 16, queue := [], closed := false } else none)
        { target := TELEMETRY_LOG_SPAN, fields := [("message_verbosity", FieldValue.u64Val 3), ("json", FieldValue.strVal "\x7b\"msg\":\"hello\"\x7d")] }
        [(TELEMETRY_LOG_SPAN, 7)]).1.enqueued
      = [(42, 3, "\x7b\"id\":7,\"msg\":\"hello\"\x7d")] := by
  have h := (on_event_valid_event_delivers (fun x => if x = 7 then some 42 else none)
    (fun x => if x = 42 then some { capacity := 16, queue := [], closed := false } else none)
    { target := TELEMETRY_LOG_SPAN, fields := [("message_verbosity", FieldValue.u64Val 3), ("json", FieldValue.strVal "\x7b\"msg\":\"hello\"\x7d")] }
    [(TELEMETRY_LOG_SPAN, 7)] (TELEMETRY_LOG_SPAN, 7) 42
    { capacity := 16, queue := [], closed := false }
    rfl (by decide) rfl rfl rfl (by decide)).1
  rw [h]
  decide

/-- C5 (confirmed): on the delivery path (marker target, span in scope,
registered sender, both fields decoded), a `message_verbosity` value `v ≤ 255`
is passed to `try_send` unchanged (the u64-to-u8 conversion is the identity on
values below 256) with no panic, while `v > 255` makes the conversion's
`expect` fail: the verbosity-overflow panic is raised before any send attempt
and nothing is enqueued. -/
theorem on_event_verbosity_narrowing (s : Senders) (w : World) (e : EventModel)
    (scope : List (String × Nat)) (sp : String × Nat) (c : Nat) (attrs : TelemetryAttrs)
    (v : Nat) (j : String)
    (ht : e.target = TELEMETRY_LOG_SPAN)
    (hs : scope.find? (fun x => x.1 = TELEMETRY_LOG_SPAN) = some sp)
    (hsend : lookupSender s sp.2 = some c)
    (hdec : runVisitor sp.2 e.fields = .ok attrs)
    (hv : attrs.message_verbosity = some v)
    (hj : attrs.json = some j) :
    (v ≤ 255 →
      (on_event s w e scope).1.sendAttempts = [(c, v, j)]
        ∧ (on_event s w e scope).1.panicked = none)
      ∧ (255 < v →
        (on_event s w e scope).1.panicked = some PanicKind.verbosityOverflow
          ∧ (on_event s w e scope).1.sendAttempts = []
          ∧ (on_event s w e scope).1.enqueued = []
          ∧ (on_event s w e scope).2 = w) := by
  simp only [on_event, ht, hs, hsend, hdec, hv, hj]
  constructor
  · intro hle
    have hlt : v < 256 := by omega
    rcases htr : try_send w c (v, j) with err | w' <;> simp_all [noEffects]
  · intro hgt
    have hnlt : ¬ v < 256 := by omega
    simp only [if_neg hnlt]
    simp [noEffects]

/-- C5 witness: verbosity 3 is forwarded as 3; verbosity 300 panics with the
overflow condition. -/
theorem on_event_verbosity_narrowing_witness :
    (on_event (fun x => if x = 1 then some 5 else none) (fun _ => none)
        { target := TELEMETRY_LOG_SPAN, fields := [("message_verbosity", FieldValue.u64Val 300), ("json", FieldValue.strVal "\x7b\x7d")] }
        [(TELEMETRY_LOG_SPAN, 1)]).1.panicked
      = some PanicKind.verbosityOverflow :=
  ((on_event_verbosity_narrowing (fun x => if x = 1 then some 5 else none) (fun _ => none)
    { target := TELEMETRY_LOG_SPAN, fields := [("message_verbosity", FieldValue.u64Val 300), ("json", FieldValue.strVal "\x7b\x7d")] }
    [(TELEMETRY_LOG_SPAN, 1)] (TELEMETRY_LOG_SPAN, 1) 5
    { message_verbosity := some 300, json := some "\x7b\"id\":1,\x7d", id := 1 } 300 "\x7b\"id\":1,\x7d"
    rfl (by decide) rfl (by decide) rfl rfl).2 (by decide)).1

/-- C8 (confirmed): on the delivery path, when the registered channel is
closed (consumer gone) or at capacity, `on_event` logs exactly the one
warning diagnostic, enqueues nothing, does not panic (returns normally, no
error propagated), and leaves every channel unchanged. -/
theorem on_event_channel_error_warns_drops (s : Senders) (w : World) (e : EventModel)
    (scope : List (String × Nat)) (sp : String × Nat) (c : Nat) (attrs : TelemetryAttrs)
    (v : Nat) (j : String) (ch : ChannelState)
    (ht : e.target = TELEMETRY_LOG_SPAN)
    (hs : scope.find? (fun x => x.1 = TELEMETRY_LOG_SPAN) = some sp)
    (hsend : lookupSender s sp.2 = some c)
    (hdec : runVisitor sp.2 e.fields = .ok attrs)
    (hv : attrs.message_verbosity = some v)
    (hj : attrs.json = some j)
    (hvle : v ≤ 255)
    (hch : w c = some ch)
    (hbad : ch.closed = true ∨ ch.capacity ≤ ch.queue.length) :
    (on_event s w e scope).1.diags = [Diag.warnChannelError]
      ∧ (on_event s w e scope).1.enqueued = []
      ∧ (on_event s w e scope).1.panicked = none
      ∧ (on_event s w e scope).2 = w := by
  have herr : ∃ err, try_send w c (v, j) = Except.error err := by
    rcases hbad with hb | hb
    · exact ⟨.disconnected, by simp [try_send, hch, hb]⟩
    · by_cases hc : ch.closed
      · exact ⟨.disconnected, by simp [try_send, hch, hc]⟩
      · exact ⟨.full, by simp [try_send, hch, hc, hb]⟩
  obtain ⟨err, herr⟩ := herr
  have hlt : v < 256 := by omega
  simp only [on_event, ht, hs, hsend, hdec, hv, hj]
  simp_all [noEffects]

/-- C8 witness: a zero-capacity channel rejects the message, one warning is
logged, nothing is enqueued, and no panic occurs. -/
theorem on_event_channel_error_warns_drops_witness :
    (on_event (fun x => if x = 1 then some 5 else none)
        (fun x => if x = 5 then some { capacity := 0, queue := [], closed := false } else none)
        { target := TELEMETRY_LOG_SPAN, fields := [("message_verbosity", FieldValue.u64Val 3), ("json", FieldValue.strVal "\x7b\x7d")] }
        [(TELEMETRY_LOG_SPAN, 1)]).1.diags
      = [Diag.warnChannelError] :=
  (on_event_channel_error_warns_drops (fun x => if x = 1 then some 5 else none)
    (fun x => if x = 5 then some { capacity := 0, queue := [], closed := false } else none)
    { target := TELEMETRY_LOG_SPAN, fields := [("message_verbosity", FieldValue.u64Val 3), ("json", FieldValue.strVal "\x7b\x7d")] }
    [(TELEMETRY_LOG_SPAN, 1)] (TELEMETRY_LOG_SPAN, 1) 5
    { message_verbosity := some 3, json := some "\x7b\"id\":1,\x7d", id := 1 } 3 "\x7b\"id\":1,\x7d"
    { capacity := 0, queue := [], closed := false }
    rfl (by decide) rfl (by decide) rfl rfl (by decide) rfl (Or.inr (by decide))).1

end SubstrateTelemetry
